import Mathlib

/-
A shallow embedding of the resampling-evaluation core of `src/sampling.py`
(KDDCup1999 repository).  The pandas frame is modelled column-wise, the
external libraries (imblearn samplers, sklearn cross-validation, numpy
mean/std) are parameters collected in an `Externals` record, and every print /
plot side effect of the loop is recorded as an `Event` in a trace carried
by the orchestrator `State`.  Machine floats are modelled as `Rat`; a
Python exception is an `Err` value threaded explicitly.
-/

/-- A pandas DataFrame, stored column-wise: a list of (column name, column
values) pairs, mirroring pandas' column orientation. -/
structure DataFrame (α : Type) where
  cols : List (String × List α)
deriving DecidableEq

variable {α : Type}

/-- Column lookup, as pandas attribute / bracket access: the first column
with the given name, or `none` when the frame has no such column. -/
def DataFrame.getCol (df : DataFrame α) (c : String) : Option (List α) :=
  (df.cols.find? (fun p => p.1 == c)).map Prod.snd

/-- The ordered list of column names of the frame. -/
def DataFrame.colNames (df : DataFrame α) : List String :=
  df.cols.map Prod.fst

/-- Number of rows (length of the first column; 0 for an empty frame). -/
def DataFrame.nrows (df : DataFrame α) : Nat :=
  match df.cols with
  | [] => 0
  | c :: _ => c.2.length

/-- `df.shape` as in pandas: (row count, column count). -/
def DataFrame.shape (df : DataFrame α) : Nat × Nat :=
  (df.nrows, df.cols.length)

/-- A Python exception escaping the loop: pandas `KeyError`,
pandas/DataFrame `AttributeError`, or an error raised inside an external
library call (sampler or cross-validation), tagged with a code. -/
inductive Err where
  | keyError (key : String)
  | attributeError (attr : String)
  | runtimeError (code : Nat)
deriving DecidableEq

/-- The `random_state` argument of sklearn/imblearn constructors: either a
fixed integer seed or `None`, which means the global (ambient) RNG. -/
inductive RandomState where
  | fixed (seed : Nat)
  | global
deriving DecidableEq

/-- Resolve a `random_state` against the ambient RNG state: a fixed seed
ignores the ambient state, `None` consults it. -/
def RandomState.resolve (rs : RandomState) (ambient : Nat) : Nat :=
  match rs with
  | .fixed s => s
  | .global => ambient

/-- Configuration of an `XGBClassifier(n_estimators=..., random_state=...)`
instance, with the seed already resolved. -/
structure XGBCfg where
  n_estimators : Nat
  random_state : Nat
deriving DecidableEq

/-- The `cv` argument of a sklearn cross-validation call: either a
`StratifiedKFold(n_splits=..., random_state=...)` object (seed resolved) or
a plain integer k (sklearn then uses an unshuffled, unstratified KFold). -/
inductive CV where
  | stratifiedKFold (n_splits : Nat) (random_state : Nat)
  | kInt (k : Nat)
deriving DecidableEq

/-- One observable step of the run: a state write marker for
`self.y = self.full[label]`, the shape print of `sample`, the two
cross-validation calls with their full argument lists, the accuracy print
(values already scaled by 100 as in the source format string), the
confusion-matrix render and the bar-chart render. -/
inductive Event (α : Type) where
  | setY (label : String)
  | printShape (title : String) (xShape : Nat × Nat) (yLen : Nat)
  | crossValScore (clf : XGBCfg) (cv : CV) (x : DataFrame α) (y : List α)
  | crossValPredict (clf : XGBCfg) (cv : CV) (x : DataFrame α) (y : List α)
  | printAccuracy (title label : String) (meanPct stdPct : Rat)
  | confusionMatrix (actual pred : List α) (title : String)
  | barChart (counts : List (α × Nat)) (title : String)
deriving DecidableEq

/-- The y argument of a `crossValPredict` event, `none` for other events. -/
def Event.predictY : Event α → Option (List α)
  | .crossValPredict _ _ _ y => some y
  | _ => none

/-- The eight sampler variants of the loop; all but `original` are
external imblearn classes. -/
inductive SamplerKind where
  | original
  | randomOverSampler
  | smote
  | adasyn
  | borderlineSMOTE1
  | borderlineSMOTE2
  | svmsmote
  | smotenc
deriving DecidableEq

/-- A sampler as constructed in the loop header: its kind, its class name
(`sampler.__class__.__name__`), its `random_state` argument (absent for
`Original`), the BorderlineSMOTE `kind` argument, and the SMOTENC
`categorical_features` argument. -/
structure SamplerSpec where
  kind : SamplerKind
  name : String
  random_state : Option RandomState
  kind_param : Option String
  categorical_features : Option (List Nat)
deriving DecidableEq

/-- External capabilities used by the loop: sklearn cross-validation,
numpy mean/std, and the imblearn `fit_resample` implementations (taking
the resolved seed and the `categorical_features` configuration). -/
structure Externals (α : Type) where
  cross_val_score : XGBCfg → CV → DataFrame α → List α → Except Err (List Rat)
  cross_val_predict : XGBCfg → CV → DataFrame α → List α → Except Err (List α)
  mean : List Rat → Rat
  std : List Rat → Rat
  lib_fit_resample : SamplerKind → Option Nat → Option (List Nat) →
      DataFrame α → List α → Except Err (DataFrame α × List α)

namespace Original

/-- `Original.fit_resample` (src/sampling.py lines 31-33): the identity
baseline returns its inputs unchanged. -/
def fit_resample (x : DataFrame α) (y : List α) : DataFrame α × List α :=
  (x, y)

end Original

/-- Resampling dispatch: the `Original` kind runs the in-repository
identity implementation, every other kind calls the external imblearn
implementation with its resolved seed and configuration. -/
def SamplerSpec.fit_resample (ext : Externals α) (ambient : Nat) (s : SamplerSpec)
    (x : DataFrame α) (y : List α) : Except Err (DataFrame α × List α) :=
  match s.kind with
  | .original => .ok (Original.fit_resample x y)
  | k => ext.lib_fit_resample k (s.random_state.map (fun rs => rs.resolve ambient))
      s.categorical_features x y

/-- `self.random_state` as set in `Sampling.__init__` (line 75). -/
def random_state : Nat := 20

/-- The sampler tuple of the loop header (src/sampling.py lines 106-113),
in source order: `Original()`, `RandomOverSampler()` (no seed, global RNG),
`SMOTE(random_state=0)`, `ADASYN(random_state=20)`, two
`BorderlineSMOTE(random_state=20, kind=...)` variants,
`SVMSMOTE(random_state=20)`, and
`SMOTENC(categorical_features=[1, 2, 3], random_state=20)`. -/
def samplers : List SamplerSpec :=
  [ ⟨.original, "Original", none, none, none⟩,
    ⟨.randomOverSampler, "RandomOverSampler", some .global, none, none⟩,
    ⟨.smote, "SMOTE", some (.fixed 0), none, none⟩,
    ⟨.adasyn, "ADASYN", some (.fixed random_state), none, none⟩,
    ⟨.borderlineSMOTE1, "BorderlineSMOTE", some (.fixed random_state),
      some "borderline-1", none⟩,
    ⟨.borderlineSMOTE2, "BorderlineSMOTE", some (.fixed random_state),
      some "borderline-2", none⟩,
    ⟨.svmsmote, "SVMSMOTE", some (.fixed random_state), none, none⟩,
    ⟨.smotenc, "SMOTENC", some (.fixed random_state), none, some [1, 2, 3]⟩ ]

/-- The column list `self.scale_cols` (src/sampling.py lines 81-86): the 28
numeric columns that are power-transformed and that make up `X`. -/
def scale_cols : List String :=
  ["duration", "src_bytes", "dst_bytes", "land", "wrong_fragment", "urgent",
   "hot", "num_failed_logins", "logged_in", "num_compromised", "root_shell",
   "su_attempted", "num_root", "num_file_creations", "num_shells",
   "num_access_files", "is_guest_login", "count", "srv_count", "serror_rate",
   "rerror_rate", "diff_srv_rate", "srv_diff_host_rate", "dst_host_count",
   "dst_host_srv_count", "dst_host_diff_srv_rate",
   "dst_host_same_src_port_rate", "dst_host_srv_diff_host_rate"]

/-- Shape of a value of the `self.scores` mapping.  The source initialises
`self.scores = OrderedDict()` (line 80) and never inserts into it, so no
value is ever constructed; the field shape follows the spec's
EvaluationResult (mean accuracy, accuracy standard deviation, predicted
labels). -/
structure EvalResult (α : Type) where
  mean : Rat
  std : Rat
  predictions : List α
deriving DecidableEq

/-- The orchestrator's mutable fields used by the loop: `self.X`,
`self.full`, `self.y` (initially `None`), the `self.scores` ordered
mapping, and the trace of observable events (prints and plots). -/
structure State (α : Type) where
  X : DataFrame α
  full : DataFrame α
  y : Option (List α)
  scores : List ((String × String) × EvalResult α)
  trace : List (Event α)
deriving DecidableEq

/-- `Sampling.set_y` (lines 161-162): `self.y = self.full[label]`; a
missing column raises a pandas `KeyError`. -/
def set_y (full : DataFrame α) (label : String) : Except Err (List α) :=
  match full.getCol label with
  | some v => .ok v
  | none => .error (.keyError label)

/-- Column selection `full.loc[:, cs]`: every requested column in the
requested order; `none` when any requested column is missing (pandas
raises a `KeyError`). -/
def selectCols (full : DataFrame α) : List String → Option (List (String × List α))
  | [] => some []
  | c :: cs =>
    match full.getCol c, selectCols full cs with
    | some v, some rest => some ((c, v) :: rest)
    | _, _ => none

/-- `Sampling.set_X` (lines 158-159): `self.X = self.full.loc[:, self.scale_cols]`. -/
def set_X (full : DataFrame α) : Except Err (DataFrame α) :=
  match selectCols full scale_cols with
  | some cs => .ok ⟨cs⟩
  | none => .error (.keyError "scale_cols")

/-- `Series.value_counts()`: each distinct value of the list with its
number of occurrences (ordering of the distinct values is not used by any
later computation). -/
def value_counts [DecidableEq α] (l : List α) : List (α × Nat) :=
  l.dedup.map (fun v => (v, l.count v))

/-- The classifier constructed at line 171:
`XGBClassifier(n_estimators=100, random_state=self.random_state)`, its
seed resolved against the ambient RNG. -/
def loopClf (ambient : Nat) : XGBCfg :=
  ⟨100, (RandomState.fixed random_state).resolve ambient⟩

/-- The fold object constructed at line 172:
`StratifiedKFold(n_splits=10, random_state=self.random_state)`, its seed
resolved against the ambient RNG. -/
def loopKFold (ambient : Nat) : CV :=
  .stratifiedKFold 10 ((RandomState.fixed random_state).resolve ambient)

/-- `Sampling.model_and_score` (lines 170-178): build a fresh
`XGBClassifier(n_estimators=100, random_state=self.random_state)` and a
`StratifiedKFold(n_splits=10, random_state=self.random_state)`, run
`cross_val_score(clf, res_x, res_y, cv=kfold)`, run
`cross_val_predict(clf, res_x, self.y, cv=10)` (note: `self.y`, the label
vector currently stored on the orchestrator, not `res_y`), print the mean
and std of the scores scaled by 100, and render the confusion matrix of
`(res_y, y_pred)`.  Returns the emitted events and the first library
error, if any. -/
def model_and_score (ext : Externals α) (ambient : Nat) (selfY : List α)
    (res_x : DataFrame α) (res_y : List α) (title label : String) :
    List (Event α) × Option Err :=
  match ext.cross_val_score (loopClf ambient) (loopKFold ambient) res_x res_y with
  | .error e =>
    ([.crossValScore (loopClf ambient) (loopKFold ambient) res_x res_y], some e)
  | .ok results =>
    match ext.cross_val_predict (loopClf ambient) (.kInt 10) res_x selfY with
    | .error e =>
      ([.crossValScore (loopClf ambient) (loopKFold ambient) res_x res_y,
        .crossValPredict (loopClf ambient) (.kInt 10) res_x selfY], some e)
    | .ok y_pred =>
      ([.crossValScore (loopClf ambient) (loopKFold ambient) res_x res_y,
        .crossValPredict (loopClf ambient) (.kInt 10) res_x selfY,
        .printAccuracy title label (ext.mean results * 100) (ext.std results * 100),
        .confusionMatrix res_y y_pred
          (title ++ " - XGBClassifier - Label " ++ label)], none)

/-- One label pass of the loop body: `self.set_y(label)`, then
`self.sample(sampler)` (lines 164-168: resample `(self.X, self.y)` and
print the resulting shapes), then `self.model_and_score(...)`.  Returns
the updated state and either the resampled feature frame or the first
error raised. -/
def processLabel (ext : Externals α) (ambient : Nat) (s : SamplerSpec)
    (label : String) (st : State α) : State α × Except Err (DataFrame α) :=
  match set_y st.full label with
  | .error e => (st, .error e)
  | .ok yv =>
    match SamplerSpec.fit_resample ext ambient s st.X yv with
    | .error e =>
      ({ st with y := some yv, trace := st.trace ++ [Event.setY label] }, .error e)
    | .ok (rx, ry) =>
      match model_and_score ext ambient yv rx ry s.name label with
      | (evs, some e) =>
        ({ st with
             y := some yv,
             trace := st.trace ++ [Event.setY label] ++
               [Event.printShape s.name rx.shape ry.length] ++ evs }, .error e)
      | (evs, none) =>
        ({ st with
             y := some yv,
             trace := st.trace ++ [Event.setY label] ++
               [Event.printShape s.name rx.shape ry.length] ++ evs }, .ok rx)

/-- One iteration of the outer loop (lines 115-126): the
`attack_category` pass, then the bar chart
`res_x.attack_category.value_counts().plot(kind='bar', ...)` (an
`AttributeError` when `res_x` has no `attack_category` column), then the
`target` pass. -/
def iterStrategy [DecidableEq α] (ext : Externals α) (ambient : Nat)
    (s : SamplerSpec) (st : State α) : State α × Option Err :=
  match processLabel ext ambient s "attack_category" st with
  | (st1, .error e) => (st1, some e)
  | (st1, .ok rx) =>
    match rx.getCol "attack_category" with
    | none => (st1, some (Err.attributeError "attack_category"))
    | some col =>
      match processLabel ext ambient s "target"
          { st1 with trace := st1.trace ++
              [Event.barChart (value_counts col) "Re-weighted Count (attack_category)"] } with
      | (st3, .error e) => (st3, some e)
      | (st3, .ok _) => (st3, none)

/-- The outer `for sampler in (...)` loop: iterate the strategies in
order, stopping at the first uncaught error (there is no handler anywhere
in the loop). -/
def runStrats [DecidableEq α] (ext : Externals α) (ambient : Nat) :
    List SamplerSpec → State α → State α × Option Err
  | [], st => (st, none)
  | s :: rest, st =>
    match iterStrategy ext ambient s st with
    | (st1, none) => runStrats ext ambient rest st1
    | (st1, some e) => (st1, some e)

/-- Initial orchestrator state entering the loop: `X` as just set,
`self.y = None`, `self.scores` empty, no events yet. -/
def initState (X full : DataFrame α) : State α :=
  ⟨X, full, none, [], []⟩

/-- The core of `Sampling.__init__` after preprocessing (lines 101-126):
`self.set_X()` followed by the sampling loop over the eight strategies. -/
def run [DecidableEq α] (ext : Externals α) (ambient : Nat) (full : DataFrame α) :
    State α × Option Err :=
  match set_X full with
  | .error e => (initState ⟨[]⟩ full, some e)
  | .ok X => runStrats ext ambient samplers (initState X full)

instance {ε β : Type} [DecidableEq ε] [DecidableEq β] : DecidableEq (Except ε β) :=
  fun x y =>
    match x, y with
    | .ok a, .ok b =>
      if h : a = b then isTrue (by rw [h]) else isFalse (by intro hc; cases hc; exact h rfl)
    | .error a, .error b =>
      if h : a = b then isTrue (by rw [h]) else isFalse (by intro hc; cases hc; exact h rfl)
    | .ok _, .error _ => isFalse (by intro hc; cases hc)
    | .error _, .ok _ => isFalse (by intro hc; cases hc)

/-- A concrete post-preprocessing working table with two rows: all 28
`scale_cols` plus the two target-label columns. -/
def full0 : DataFrame Nat :=
  ⟨scale_cols.map (fun c => (c, [0, 1])) ++
    [("attack_category", [0, 1]), ("target", [0, 1])]⟩

/-- The feature matrix `set_X` produces from `full0`. -/
def Xfull0 : DataFrame Nat := ⟨scale_cols.map (fun c => (c, [0, 1]))⟩

/-- Benign external capabilities: every library call succeeds, resampling
is the identity. -/
def ext0 : Externals Nat :=
  { cross_val_score := fun _ _ _ _ => .ok [1],
    cross_val_predict := fun _ _ _ y => .ok y,
    mean := fun _ => 1,
    std := fun _ => 0,
    lib_fit_resample := fun _ _ _ x y => .ok (x, y) }

/-- A two-row resampled frame that does carry an `attack_category`
column. -/
def dfA : DataFrame Nat := ⟨[("attack_category", [7, 7])]⟩

/-- External capabilities whose imblearn samplers return `dfA` (a frame
containing an `attack_category` column), so a non-identity iteration can
complete. -/
def ext1 : Externals Nat :=
  { cross_val_score := fun _ _ _ _ => .ok [1],
    cross_val_predict := fun _ _ _ y => .ok y,
    mean := fun _ => 1,
    std := fun _ => 0,
    lib_fit_resample := fun _ _ _ _ _ => .ok (dfA, [7, 7]) }

/-- External capabilities whose imblearn samplers raise. -/
def extErr : Externals Nat :=
  { cross_val_score := fun _ _ _ _ => .ok [1],
    cross_val_predict := fun _ _ _ y => .ok y,
    mean := fun _ => 1,
    std := fun _ => 0,
    lib_fit_resample := fun _ _ _ _ _ => .error (.runtimeError 7) }

/-- The `SMOTE(random_state=0)` entry of the sampler tuple. -/
def smoteSpec : SamplerSpec := ⟨.smote, "SMOTE", some (.fixed 0), none, none⟩

/-- The orchestrator state entering the loop on `full0`. -/
def st0 : State Nat := initState Xfull0 full0

/-- The state after `set_y('attack_category')` on `st0` (the point where a
raising sampler aborts the run). -/
def st1c : State Nat :=
  { st0 with y := some [0, 1], trace := [Event.setY "attack_category"] }

/-- Selecting columns yields exactly the requested names in the requested
order. -/
theorem selectCols_names (full : DataFrame α) :
    ∀ (cs : List String) (l : List (String × List α)),
      selectCols full cs = some l → l.map Prod.fst = cs := by
  intro cs
  induction cs with
  | nil =>
    intro l h
    simp [selectCols] at h
    simp [← h]
  | cons c cs ih =>
    intro l h
    unfold selectCols at h
    cases hg : full.getCol c with
    | none => rw [hg] at h; simp at h
    | some v =>
      cases hr : selectCols full cs with
      | none => rw [hg, hr] at h; simp at h
      | some rest =>
        rw [hg, hr] at h
        simp only [Option.some.injEq] at h
        subst h
        simp [ih rest hr]

/-- `set_X` succeeds only with a frame whose column names are exactly
`scale_cols`. -/
theorem set_X_colNames {full X : DataFrame α} (h : set_X full = .ok X) :
    X.colNames = scale_cols := by
  unfold set_X at h
  cases hs : selectCols full scale_cols with
  | none => rw [hs] at h; cases h
  | some cs =>
    rw [hs] at h
    cases h
    exact selectCols_names full scale_cols cs hs

/-- A name absent from the column names is absent from the frame. -/
theorem getCol_eq_none_of_not_mem {df : DataFrame α} {k : String}
    (h : k ∉ df.colNames) : df.getCol k = none := by
  unfold DataFrame.getCol
  have hn : df.cols.find? (fun p => p.1 == k) = none := by
    apply List.find?_eq_none.mpr
    intro p hp hb
    have hm : p.1 ∈ df.colNames := List.mem_map_of_mem Prod.fst hp
    rw [eq_of_beq hb] at hm
    exact h hm
  rw [hn]
  rfl

/-- A label pass never touches `self.X`, `self.full` or `self.scores`. -/
theorem processLabel_fields (ext : Externals α) (ambient : Nat)
    (s : SamplerSpec) (label : String) (st : State α) :
    ((processLabel ext ambient s label st).1).X = st.X ∧
    ((processLabel ext ambient s label st).1).full = st.full ∧
    ((processLabel ext ambient s label st).1).scores = st.scores := by
  unfold processLabel
  repeat' split
  all_goals exact ⟨rfl, rfl, rfl⟩

/-- A strategy iteration never touches `self.X`, `self.full` or
`self.scores`. -/
theorem iterStrategy_fields [DecidableEq α] (ext : Externals α)
    (ambient : Nat) (s : SamplerSpec) (st : State α) :
    ((iterStrategy ext ambient s st).1).X = st.X ∧
    ((iterStrategy ext ambient s st).1).full = st.full ∧
    ((iterStrategy ext ambient s st).1).scores = st.scores := by
  unfold iterStrategy
  split
  next st1 e heq =>
    have h1 := processLabel_fields ext ambient s "attack_category" st
    rw [heq] at h1
    simpa using h1
  next st1 rx heq =>
    have h1 := processLabel_fields ext ambient s "attack_category" st
    rw [heq] at h1
    simp only at h1
    split
    · simpa using h1
    next col hcol =>
      split
      next st3 e heq2 =>
        have h2 := processLabel_fields ext ambient s "target"
          { st1 with trace := st1.trace ++
              [Event.barChart (value_counts col) "Re-weighted Count (attack_category)"] }
        rw [heq2] at h2
        simp only at h2
        exact ⟨h2.1.trans h1.1, h2.2.1.trans h1.2.1, h2.2.2.trans h1.2.2⟩
      next st3 rx2 heq2 =>
        have h2 := processLabel_fields ext ambient s "target"
          { st1 with trace := st1.trace ++
              [Event.barChart (value_counts col) "Re-weighted Count (attack_category)"] }
        rw [heq2] at h2
        simp only at h2
        exact ⟨h2.1.trans h1.1, h2.2.1.trans h1.2.1, h2.2.2.trans h1.2.2⟩

/-- The whole strategy loop never touches `self.X`, `self.full` or
`self.scores`. -/
theorem runStrats_fields [DecidableEq α] (ext : Externals α) (ambient : Nat) :
    ∀ (ss : List SamplerSpec) (st : State α),
      ((runStrats ext ambient ss st).1).X = st.X ∧
      ((runStrats ext ambient ss st).1).full = st.full ∧
      ((runStrats ext ambient ss st).1).scores = st.scores := by
  intro ss
  induction ss with
  | nil => intro st; exact ⟨rfl, rfl, rfl⟩
  | cons s rest ih =>
    intro st
    unfold runStrats
    split
    next st1 heq =>
      have h1 := iterStrategy_fields ext ambient s st
      rw [heq] at h1
      have h2 := ih st1
      simp only at h1
      exact ⟨h2.1.trans h1.1, h2.2.1.trans h1.2.1, h2.2.2.trans h1.2.2⟩
    next st1 e heq =>
      have h1 := iterStrategy_fields ext ambient s st
      rw [heq] at h1
      simpa using h1

/-- Big-step rule for `model_and_score` when both library calls succeed:
the classifier is `⟨100, 20⟩`, the scoring fold is the seeded stratified
10-fold, the predict fold is the plain `cv=10`, and the printed statistics
are numpy mean/std of the cross-validation scores. -/
theorem model_and_score_ok (ext : Externals α) (ambient : Nat) (selfY : List α)
    (rx : DataFrame α) (ry : List α) (t l : String) (r : List Rat) (p : List α)
    (h1 : ext.cross_val_score ⟨100, 20⟩ (.stratifiedKFold 10 20) rx ry = .ok r)
    (h2 : ext.cross_val_predict ⟨100, 20⟩ (.kInt 10) rx selfY = .ok p) :
    model_and_score ext ambient selfY rx ry t l =
      ([.crossValScore ⟨100, 20⟩ (.stratifiedKFold 10 20) rx ry,
        .crossValPredict ⟨100, 20⟩ (.kInt 10) rx selfY,
        .printAccuracy t l (ext.mean r * 100) (ext.std r * 100),
        .confusionMatrix ry p (t ++ " - XGBClassifier - Label " ++ l)], none) := by
  have hc : loopClf ambient = ⟨100, 20⟩ := rfl
  have hk : loopKFold ambient = .stratifiedKFold 10 20 := rfl
  simp only [model_and_score, hc, hk, h1, h2]

/-- Big-step rule for one label pass when every step succeeds. -/
theorem processLabel_ok (ext : Externals α) (ambient : Nat) (s : SamplerSpec)
    (label : String) (st : State α) (yv : List α) (rx : DataFrame α)
    (ry : List α) (r : List Rat) (p : List α)
    (h1 : set_y st.full label = .ok yv)
    (h2 : SamplerSpec.fit_resample ext ambient s st.X yv = .ok (rx, ry))
    (h3 : ext.cross_val_score ⟨100, 20⟩ (.stratifiedKFold 10 20) rx ry = .ok r)
    (h4 : ext.cross_val_predict ⟨100, 20⟩ (.kInt 10) rx yv = .ok p) :
    processLabel ext ambient s label st =
      ({ st with
           y := some yv,
           trace := st.trace ++ [Event.setY label] ++
             [Event.printShape s.name rx.shape ry.length] ++
             [Event.crossValScore ⟨100, 20⟩ (.stratifiedKFold 10 20) rx ry,
              Event.crossValPredict ⟨100, 20⟩ (.kInt 10) rx yv,
              Event.printAccuracy s.name label (ext.mean r * 100) (ext.std r * 100),
              Event.confusionMatrix ry p
                (s.name ++ " - XGBClassifier - Label " ++ label)] }, .ok rx) := by
  have hms := model_and_score_ok ext ambient yv rx ry s.name label r p h3 h4
  simp only [processLabel, h1, h2, hms]

/-- The first strategy of the tuple is `Original`, whose resampled frame
is `self.X`; when `self.X` has no `attack_category` column, its iteration
necessarily ends in an error (whichever results the external library
calls return). -/
theorem iterOriginal_isSome [DecidableEq α] (ext : Externals α) (ambient : Nat)
    (st : State α) (h : st.X.getCol "attack_category" = none) :
    ((iterStrategy ext ambient ⟨.original, "Original", none, none, none⟩ st).2).isSome = true := by
  unfold iterStrategy
  split
  next st1 e heq => rfl
  next st1 rx heq =>
    have hrx : rx = st.X := by
      unfold processLabel at heq
      split at heq
      · simp at heq
      next yv hy =>
        simp only [SamplerSpec.fit_resample, Original.fit_resample] at heq
        split at heq
        · simp at heq
        · simp only [Prod.mk.injEq, Except.ok.injEq] at heq
          exact heq.2.symm
    rw [hrx, h]
    rfl

/-- C1 (amended): the `self.scores` mapping is never written to during the
run: for every choice of external-library behaviour, ambient RNG state and
working table, the state in which the run ends (it always ends with an
uncaught error) holds an empty scores mapping, not one entry per
(strategy name, label name) key. -/
theorem c1_scores_mapping_stays_empty [DecidableEq α] (ext : Externals α)
    (ambient : Nat) (full : DataFrame α) :
    ((run ext ambient full).1).scores = [] := by
  unfold run
  split
  · rfl
  next X hX =>
    have h := (runStrats_fields ext ambient samplers (initState X full)).2.2
    rw [h]
    rfl

/-- C1 counterexample: on a concrete well-formed working table with benign
external libraries, the run does not complete (it aborts with the
`attack_category` attribute error) and its scores mapping holds 0 entries,
not 2K = 16. -/
theorem c1_counterexample :
    ((run ext0 20 full0).1).scores = [] ∧
    (run ext0 20 full0).2 = some (Err.attributeError "attack_category") := by
  constructor
  · decide
  · decide

/-- C3: the identity-baseline resample operation returns its input pair
exactly unchanged, both as the bare `Original.fit_resample` method and as
dispatched by the loop for the `Original` sampler entry. -/
theorem c3_original_resample_is_identity (x : DataFrame α) (y : List α) :
    Original.fit_resample x y = (x, y) ∧
    (∀ (ext : Externals α) (ambient : Nat),
      SamplerSpec.fit_resample ext ambient
        ⟨.original, "Original", none, none, none⟩ x y = .ok (x, y)) :=
  ⟨rfl, fun _ _ => rfl⟩

/-- C5: the bar-chart value `res_x.attack_category.value_counts()` is not
well-defined on the first iteration's resampled output: `set_X` never
yields a frame with an `attack_category` column, so the run always ends in
an uncaught error, whatever the external libraries do. -/
theorem c5_bar_chart_value_ill_defined [DecidableEq α] (ext : Externals α)
    (ambient : Nat) (full : DataFrame α) :
    ((run ext ambient full).2).isSome = true ∧
    ((set_X full).toOption.bind (fun X => X.getCol "attack_category")) = none := by
  constructor
  · unfold run
    split
    · rfl
    next X hX =>
      have hnone : X.getCol "attack_category" = none :=
        getCol_eq_none_of_not_mem (by rw [set_X_colNames hX]; decide)
      have hit := iterOriginal_isSome ext ambient (initState X full) hnone
      simp only [samplers, runStrats]
      split
      next st1 heq => rw [heq] at hit; simp at hit
      next st1 e heq => rfl
  · cases hX : set_X full with
    | error e => rfl
    | ok X =>
      have hnone : X.getCol "attack_category" = none :=
        getCol_eq_none_of_not_mem (by rw [set_X_colNames hX]; decide)
      simp [Except.toOption, hnone]

/-- C7 counterexample: the SMOTENC entry of the sampler tuple declares
positions [1, 2, 3] as categorical, but on a concrete working table the
feature matrix produced by `set_X` does not carry the label-encoded
categorical columns (protocol_type, service, flag) at those positions. -/
theorem c7_counterexample :
    set_X full0 = Except.ok Xfull0 ∧
    (samplers.map SamplerSpec.categorical_features) =
      [none, none, none, none, none, none, none, some [1, 2, 3]] ∧
    [1, 2, 3].filterMap (fun i => Xfull0.colNames.get? i) ≠
      ["protocol_type", "service", "flag"] := by
  refine ⟨by decide, by decide, by decide⟩

/-- C7 (amended): the categorical-aware variant (SMOTENC) is configured
with the static position list [1, 2, 3]; in the feature matrix those
positions hold the power-transformed numeric columns src_bytes, dst_bytes
and land, and the label-encoded categorical columns protocol_type, service
and flag are not columns of the feature matrix at all. -/
theorem c7_smotenc_positions_are_numeric_columns :
    (samplers.map SamplerSpec.categorical_features) =
      [none, none, none, none, none, none, none, some [1, 2, 3]] ∧
    [1, 2, 3].filterMap (fun i => scale_cols.get? i) =
      ["src_bytes", "dst_bytes", "land"] ∧
    ("src_bytes" ∈ scale_cols ∧ "dst_bytes" ∈ scale_cols ∧ "land" ∈ scale_cols) ∧
    ("protocol_type" ∉ scale_cols ∧ "service" ∉ scale_cols ∧ "flag" ∉ scale_cols) ∧
    (∀ (full : DataFrame α),
      ((set_X full).toOption.map DataFrame.colNames).getD scale_cols = scale_cols) := by
  refine ⟨by decide, by decide, by decide, by decide, ?_⟩
  intro full
  cases hX : set_X full with
  | error e => rfl
  | ok X => simp [Except.toOption, set_X_colNames hX]

/-- C9: the scoring procedure applied to the identity-baseline resampled
pair is insensitive to the ambient (global) RNG state, because every
`random_state` it passes to the external libraries is the fixed seed 20:
two runs on the same inputs produce identical events, hence bit-identical
reported mean/std. -/
theorem c9_identity_scoring_deterministic (ext : Externals α)
    (ambient1 ambient2 : Nat) (X : DataFrame α) (y : List α) (t l : String) :
    model_and_score ext ambient1 y (Original.fit_resample X y).1
        (Original.fit_resample X y).2 t l =
      model_and_score ext ambient2 y (Original.fit_resample X y).1
        (Original.fit_resample X y).2 t l := rfl

/-- C10: whenever `set_X` succeeds, the feature matrix has exactly the 28
enumerated power-transformed numeric columns in order; the label-encoded
categorical columns and the two target-label columns are not among them;
and the stored feature matrix is reused unchanged by the whole strategy
loop. -/
theorem c10_feature_matrix_schema_and_reuse [DecidableEq α]
    (full X : DataFrame α) (ext : Externals α) (ambient : Nat)
    (ss : List SamplerSpec) (st : State α) (hX : set_X full = .ok X) :
    X.colNames = scale_cols ∧
    scale_cols.length = 28 ∧
    ("protocol_type" ∉ scale_cols ∧ "service" ∉ scale_cols ∧
     "flag" ∉ scale_cols ∧ "attack_category" ∉ scale_cols ∧
     "target" ∉ scale_cols) ∧
    ((runStrats ext ambient ss st).1).X = st.X :=
  ⟨set_X_colNames hX, by decide, by decide,
    (runStrats_fields ext ambient ss st).1⟩

/-- C10 witness: the schema facts and loop-invariance at the concrete
working table `full0` with benign external libraries. -/
theorem c10_feature_matrix_schema_and_reuse_witness :
    Xfull0.colNames = scale_cols ∧
    scale_cols.length = 28 ∧
    ("protocol_type" ∉ scale_cols ∧ "service" ∉ scale_cols ∧
     "flag" ∉ scale_cols ∧ "attack_category" ∉ scale_cols ∧
     "target" ∉ scale_cols) ∧
    ((runStrats ext0 20 samplers st0).1).X = st0.X :=
  c10_feature_matrix_schema_and_reuse full0 Xfull0 ext0 20 samplers st0 (by decide)

/-- C2: the label vector handed to the prediction-producing
cross-validation call is always `self.y` (the pre-resampling label vector
of the active variant), never the resampled one: every `crossValPredict`
event of the scoring procedure carries `self.y`, and at a concrete input
whose resampled labels differ from the originals the two disagree. -/
theorem c2_predict_scored_against_original_y :
    (∀ {β : Type} (ext : Externals β) (ambient : Nat) (selfY : List β)
        (rx : DataFrame β) (ry : List β) (t l : String),
      (model_and_score ext ambient selfY rx ry t l).1.filterMap Event.predictY = [] ∨
      (model_and_score ext ambient selfY rx ry t l).1.filterMap Event.predictY = [selfY]) ∧
    ((model_and_score ext0 20 [0, 1] dfA [7, 7] "SMOTE" "attack_category").1.filterMap
        Event.predictY = [[0, 1]] ∧
      ([0, 1] : List Nat) ≠ [7, 7]) := by
  constructor
  · intro β ext ambient selfY rx ry t l
    unfold model_and_score
    cases hs : ext.cross_val_score (loopClf ambient) (loopKFold ambient) rx ry with
    | error e => left; rfl
    | ok r =>
      cases hp : ext.cross_val_predict (loopClf ambient) (.kInt 10) rx selfY with
      | error e => right; rfl
      | ok p => right; rfl
  · exact ⟨by decide, by decide⟩

/-- C6: the scoring procedure builds a fresh classifier with exactly 100
estimators and the fixed seed 20, scores it with a stratified 10-fold
partitioning carrying the same seed on the resampled pair, and reports the
mean and standard deviation of those fold accuracies (as percentages). -/
theorem c6_scoring_configuration (ext : Externals α) (ambient : Nat)
    (selfY : List α) (rx : DataFrame α) (ry : List α) (t l : String)
    (r : List Rat) (p : List α) :
    loopClf ambient = ⟨100, 20⟩ ∧
    loopKFold ambient = .stratifiedKFold 10 20 ∧
    (ext.cross_val_score ⟨100, 20⟩ (.stratifiedKFold 10 20) rx ry = .ok r →
     ext.cross_val_predict ⟨100, 20⟩ (.kInt 10) rx selfY = .ok p →
     model_and_score ext ambient selfY rx ry t l =
       ([.crossValScore ⟨100, 20⟩ (.stratifiedKFold 10 20) rx ry,
         .crossValPredict ⟨100, 20⟩ (.kInt 10) rx selfY,
         .printAccuracy t l (ext.mean r * 100) (ext.std r * 100),
         .confusionMatrix ry p (t ++ " - XGBClassifier - Label " ++ l)], none)) :=
  ⟨rfl, rfl, fun h1 h2 => model_and_score_ok ext ambient selfY rx ry t l r p h1 h2⟩

/-- C6 witness: the scoring configuration and output at a concrete
identity-baseline input with benign external libraries. -/
theorem c6_scoring_configuration_witness :
    loopClf 20 = ⟨100, 20⟩ ∧
    loopKFold 20 = .stratifiedKFold 10 20 ∧
    model_and_score ext0 20 [0, 1] Xfull0 [0, 1] "Original" "attack_category" =
      ([.crossValScore ⟨100, 20⟩ (.stratifiedKFold 10 20) Xfull0 [0, 1],
        .crossValPredict ⟨100, 20⟩ (.kInt 10) Xfull0 [0, 1],
        .printAccuracy "Original" "attack_category" (ext0.mean [1] * 100) (ext0.std [1] * 100),
        .confusionMatrix [0, 1] [0, 1]
          ("Original" ++ " - XGBClassifier - Label " ++ "attack_category")], none) := by
  have h := c6_scoring_configuration ext0 20 [0, 1] Xfull0 [0, 1]
    "Original" "attack_category" [1] [0, 1]
  exact ⟨h.1, h.2.1, h.2.2 rfl rfl⟩

/-- C8: no error raised inside a strategy iteration is caught: any
iteration error becomes the result of the whole remaining run (the later
strategies are never reached and the state is exactly the state at the
failure point), and an error raised by the resample operation itself
aborts its iteration with that same error. -/
theorem c8_errors_propagate_and_abort [DecidableEq α] (ext : Externals α)
    (ambient : Nat) (s : SamplerSpec) (rest : List SamplerSpec)
    (st st1 : State α) (e : Err) (y1 : List α) :
    (iterStrategy ext ambient s st = (st1, some e) →
      runStrats ext ambient (s :: rest) st = (st1, some e)) ∧
    (set_y st.full "attack_category" = .ok y1 →
     SamplerSpec.fit_resample ext ambient s st.X y1 = .error e →
     (iterStrategy ext ambient s st).2 = some e) := by
  constructor
  · intro h
    unfold runStrats
    rw [h]
  · intro h1 h2
    unfold iterStrategy processLabel
    simp only [h1, h2]

/-- C8 witness: with a concrete raising sampler the error aborts the whole
remaining run at the failure state, skipping the rest of the strategy
list. -/
theorem c8_errors_propagate_and_abort_witness :
    runStrats extErr 20 [smoteSpec, smoteSpec] st0 =
      (st1c, some (Err.runtimeError 7)) ∧
    (iterStrategy extErr 20 smoteSpec st0).2 = some (Err.runtimeError 7) := by
  have h := c8_errors_propagate_and_abort extErr 20 smoteSpec [smoteSpec]
    st0 st1c (Err.runtimeError 7) [0, 1]
  exact ⟨h.1 (by decide), h.2 (by decide) (by decide)⟩

/-- C4 (amended): the strategy tuple is iterated in source order with the
identity baseline first; for each strategy, each completing iteration
performs, per label and in order, (a) select the active label vector with
the fine-grained attack_category label first and the coarse target label
second, (b) resample `(self.X, self.y)`, (c) run the scoring procedure on
the resampled pair — with the bar chart rendered between the two label
passes — and no step (d) exists: the iteration leaves the `self.scores`
mapping untouched. -/
theorem c4_loop_order_without_recording [DecidableEq α] (ext : Externals α)
    (ambient : Nat) (s : SamplerSpec) (st : State α) (y1 : List α)
    (rx1 : DataFrame α) (ry1 : List α) (r1 : List Rat) (p1 : List α)
    (c1 : List α) (y2 : List α) (rx2 : DataFrame α) (ry2 : List α)
    (r2 : List Rat) (p2 : List α) :
    samplers.map (fun q => (q.kind, q.name)) =
      [(SamplerKind.original, "Original"),
       (SamplerKind.randomOverSampler, "RandomOverSampler"),
       (SamplerKind.smote, "SMOTE"),
       (SamplerKind.adasyn, "ADASYN"),
       (SamplerKind.borderlineSMOTE1, "BorderlineSMOTE"),
       (SamplerKind.borderlineSMOTE2, "BorderlineSMOTE"),
       (SamplerKind.svmsmote, "SVMSMOTE"),
       (SamplerKind.smotenc, "SMOTENC")] ∧
    (set_y st.full "attack_category" = .ok y1 →
     SamplerSpec.fit_resample ext ambient s st.X y1 = .ok (rx1, ry1) →
     ext.cross_val_score ⟨100, 20⟩ (.stratifiedKFold 10 20) rx1 ry1 = .ok r1 →
     ext.cross_val_predict ⟨100, 20⟩ (.kInt 10) rx1 y1 = .ok p1 →
     rx1.getCol "attack_category" = some c1 →
     set_y st.full "target" = .ok y2 →
     SamplerSpec.fit_resample ext ambient s st.X y2 = .ok (rx2, ry2) →
     ext.cross_val_score ⟨100, 20⟩ (.stratifiedKFold 10 20) rx2 ry2 = .ok r2 →
     ext.cross_val_predict ⟨100, 20⟩ (.kInt 10) rx2 y2 = .ok p2 →
     iterStrategy ext ambient s st =
       ({ st with
            y := some y2,
            trace := st.trace ++
              [Event.setY "attack_category",
               Event.printShape s.name rx1.shape ry1.length,
               Event.crossValScore ⟨100, 20⟩ (.stratifiedKFold 10 20) rx1 ry1,
               Event.crossValPredict ⟨100, 20⟩ (.kInt 10) rx1 y1,
               Event.printAccuracy s.name "attack_category"
                 (ext.mean r1 * 100) (ext.std r1 * 100),
               Event.confusionMatrix ry1 p1
                 (s.name ++ " - XGBClassifier - Label " ++ "attack_category"),
               Event.barChart (value_counts c1) "Re-weighted Count (attack_category)",
               Event.setY "target",
               Event.printShape s.name rx2.shape ry2.length,
               Event.crossValScore ⟨100, 20⟩ (.stratifiedKFold 10 20) rx2 ry2,
               Event.crossValPredict ⟨100, 20⟩ (.kInt 10) rx2 y2,
               Event.printAccuracy s.name "target"
                 (ext.mean r2 * 100) (ext.std r2 * 100),
               Event.confusionMatrix ry2 p2
                 (s.name ++ " - XGBClassifier - Label " ++ "target")] },
        none)) := by
  refine ⟨rfl, ?_⟩
  intro h1 h2 h3 h4 h5 h6 h7 h8 h9
  have hpl1 := processLabel_ok ext ambient s "attack_category" st y1 rx1 ry1 r1 p1 h1 h2 h3 h4
  have hpl2 := processLabel_ok ext ambient s "target"
    { X := st.X, full := st.full, y := some y1, scores := st.scores,
      trace := st.trace ++ [Event.setY "attack_category"] ++
        [Event.printShape s.name rx1.shape ry1.length] ++
        [Event.crossValScore ⟨100, 20⟩ (.stratifiedKFold 10 20) rx1 ry1,
         Event.crossValPredict ⟨100, 20⟩ (.kInt 10) rx1 y1,
         Event.printAccuracy s.name "attack_category"
           (ext.mean r1 * 100) (ext.std r1 * 100),
         Event.confusionMatrix ry1 p1
           (s.name ++ " - XGBClassifier - Label " ++ "attack_category")] ++
        [Event.barChart (value_counts c1) "Re-weighted Count (attack_category)"] }
    y2 rx2 ry2 r2 p2 (by exact h6) (by exact h7) h8 h9
  unfold iterStrategy
  rw [hpl1]
  simp only [h5]
  rw [hpl2]
  simp [List.append_assoc]

/-- C4 witness: a concrete completing iteration (SMOTE strategy whose
external resample returns a frame carrying an attack_category column)
produces exactly the claimed ordered steps and leaves the scores mapping
untouched. -/
theorem c4_loop_order_without_recording_witness :
    samplers.map (fun q => (q.kind, q.name)) =
      [(SamplerKind.original, "Original"),
       (SamplerKind.randomOverSampler, "RandomOverSampler"),
       (SamplerKind.smote, "SMOTE"),
       (SamplerKind.adasyn, "ADASYN"),
       (SamplerKind.borderlineSMOTE1, "BorderlineSMOTE"),
       (SamplerKind.borderlineSMOTE2, "BorderlineSMOTE"),
       (SamplerKind.svmsmote, "SVMSMOTE"),
       (SamplerKind.smotenc, "SMOTENC")] ∧
    iterStrategy ext1 20 smoteSpec st0 =
      ({ st0 with
           y := some [0, 1],
           trace := st0.trace ++
             [Event.setY "attack_category",
              Event.printShape smoteSpec.name dfA.shape [7, 7].length,
              Event.crossValScore ⟨100, 20⟩ (.stratifiedKFold 10 20) dfA [7, 7],
              Event.crossValPredict ⟨100, 20⟩ (.kInt 10) dfA [0, 1],
              Event.printAccuracy smoteSpec.name "attack_category"
                (ext1.mean [1] * 100) (ext1.std [1] * 100),
              Event.confusionMatrix [7, 7] [0, 1]
                (smoteSpec.name ++ " - XGBClassifier - Label " ++ "attack_category"),
              Event.barChart (value_counts [7, 7]) "Re-weighted Count (attack_category)",
              Event.setY "target",
              Event.printShape smoteSpec.name dfA.shape [7, 7].length,
              Event.crossValScore ⟨100, 20⟩ (.stratifiedKFold 10 20) dfA [7, 7],
              Event.crossValPredict ⟨100, 20⟩ (.kInt 10) dfA [0, 1],
              Event.printAccuracy smoteSpec.name "target"
                (ext1.mean [1] * 100) (ext1.std [1] * 100),
              Event.confusionMatrix [7, 7] [0, 1]
                (smoteSpec.name ++ " - XGBClassifier - Label " ++ "target")] },
       none) := by
  have h := c4_loop_order_without_recording ext1 20 smoteSpec st0
    [0, 1] dfA [7, 7] [1] [0, 1] [7, 7] [0, 1] dfA [7, 7] [1] [0, 1]
  exact ⟨h.1, h.2 (by decide) (by decide) (by decide) (by decide) (by decide)
    (by decide) (by decide) (by decide) (by decide)⟩

/-- C4 counterexample: a concrete (strategy, label) processing completes
without error, yet no EvaluationResult is recorded under any key — the
scores mapping stays empty, refuting the recording step (d) of the
claim. -/
theorem c4_counterexample_no_recording :
    (iterStrategy ext1 20 smoteSpec st0).2 = none ∧
    ((iterStrategy ext1 20 smoteSpec st0).1).scores = [] := by
  constructor
  · decide
  · decide
